import Mathlib

/-!
Shallow embedding of the event-authorization engine in
`src/matrixeventauth/eventauth.go` (package `matrixeventauth`), together with
the content parsers and loaders that the repository calls but does not define
in that file (those are modelled from the specification, and are marked
`Modelled from the spec:` in their doc comments).

Conventions of the embedding:
* Go `error` results become the inductive `AuthResult`: `ok` is a `nil` error,
  `notAllowed msg` is the `NotAllowed` denial value, and `panicked msg` models
  a Go runtime panic (an index out of range, a nil-pointer dereference, or an
  explicit `panic(...)` call).
* Go `int64` levels become `Int`.
* JSON unmarshalling of event content is modelled by carrying the parsed
  fields directly on the event/content structures; a field whose unmarshal
  can fail is an `Option`.
* Go maps that are only iterated for membership checks are association lists;
  Go map iteration order is unspecified, and the list order is only relied on
  where the decision is order-independent.
-/

namespace Matrixeventauth

/-- Result of an authorization routine: success, a `NotAllowed` denial value
carrying a message, or a runtime panic carrying a message. -/
inductive AuthResult where
  | ok : AuthResult
  | notAllowed : String → AuthResult
  | panicked : String → AuthResult
deriving DecidableEq, Repr

/-- True exactly on a `NotAllowed` denial value. -/
def AuthResult.isDenied : AuthResult → Bool
  | .notAllowed _ => true
  | _ => false

/-- Sequencing of authorization steps: continue only on success, mirroring the
Go pattern of returning a non-nil error early. -/
def AuthResult.andThen (r : AuthResult) (next : Unit → AuthResult) : AuthResult :=
  match r with
  | .ok => next ()
  | e => e

/-- Go `%q` formatting of a plain string (no escapes needed for the
identifiers and membership tokens used here). -/
def quoteQ (s : String) : String := "\"" ++ s ++ "\""

/-- From the source (`isValidUserID`, eventauth.go lines 444-446):
`userID[0] == '@' && strings.IndexByte(userID, ':') != -1`.
Indexing `userID[0]` on the empty string is a Go index-out-of-range panic,
modelled as `none`; identifiers here are ASCII so byte indexing agrees with
character indexing. -/
def isValidUserID (userID : String) : Option Bool :=
  match userID.data with
  | [] => none
  | c :: _ => some (c == '@' && userID.data.contains ':')

/-- Power-level content (`powerLevelContent`). The parser and loader for this
type are not part of eventauth.go; the fields and defaults follow the spec
(section 3, Power-level content). `userLevels` and `eventLevels` are the
`users` and `events` maps as association lists. -/
structure PowerLevelContent where
  banLevel : Int
  inviteLevel : Int
  kickLevel : Int
  redactLevel : Int
  stateDefaultLevel : Int
  eventDefaultLevel : Int
  userDefaultLevel : Int
  userLevels : List (String × Int)
  eventLevels : List (String × Int)
deriving DecidableEq, Repr

/-- Modelled from the spec: the defaults applied when a power-levels event is
absent or a field is missing — `ban`, `kick`, `redact`, `invite`,
`state_default` are 50; `events_default` and `users_default` are 0. -/
def defaultPowerLevels : PowerLevelContent :=
  { banLevel := 50
    inviteLevel := 50
    kickLevel := 50
    redactLevel := 50
    stateDefaultLevel := 50
    eventDefaultLevel := 0
    userDefaultLevel := 0
    userLevels := []
    eventLevels := [] }

/-- Modelled from the spec: effective user level — `users[userID]` when
present, else `users_default`. -/
def PowerLevelContent.userLevel (pl : PowerLevelContent) (userID : String) : Int :=
  match pl.userLevels.lookup userID with
  | some l => l
  | none => pl.userDefaultLevel

/-- Modelled from the spec: effective event-type level — `events[type]` when
present, else `state_default` for state events and `events_default`
otherwise. -/
def PowerLevelContent.eventLevel (pl : PowerLevelContent) (eventType : String)
    (stateKey : Option String) : Int :=
  match pl.eventLevels.lookup eventType with
  | some l => l
  | none =>
    match stateKey with
    | some _ => pl.stateDefaultLevel
    | none => pl.eventDefaultLevel

/-- Modelled from the spec: loading power levels from the oracle — when the
power-levels entry is absent, all defaults apply and the room creator has
level 100. -/
def loadPowerLevels (stored : Option PowerLevelContent) (creator : String) :
    PowerLevelContent :=
  match stored with
  | some pl => pl
  | none => { defaultPowerLevels with userLevels := [(creator, 100)] }

/-- From the source (eventauth.go lines 371-375): the loop validating every
key of the new `users` map. `isValidUserID` panics on the empty string
(modelled as `panicked`); an invalid key is denied with
`Not a valid user ID: %q`. Go map iteration order is unspecified; list order
stands in for it and the admit/deny outcome below is order-independent for
the inputs considered. -/
def validateUserIDs : List (String × Int) → AuthResult
  | [] => .ok
  | (u, _) :: rest =>
    match isValidUserID u with
    | none => .panicked "index out of range"
    | some false => .notAllowed ("Not a valid user ID: " ++ quoteQ u)
    | some true => validateUserIDs rest

/-- From the source (eventauth.go lines 403-412): the first check loop over
`levelChecks` — for a changed pair, deny when `senderLevel < old` or
`senderLevel < new`. -/
def checkLevels (senderLevel : Int) : List (Int × Int) → AuthResult
  | [] => .ok
  | (o, n) :: rest =>
    if o ≠ n ∧ (senderLevel < o ∨ senderLevel < n) then
      .notAllowed ("sender with level " ++ toString senderLevel ++
        " is not allowed to change level from " ++ toString o ++ " to " ++ toString n)
    else checkLevels senderLevel rest

/-- From the source (eventauth.go lines 430-439): the second check loop — for
a changed pair, deny when `senderLevel <= old` or `senderLevel < new`. In the
source this loop ranges over `levelChecks` again (not over the
`userLevelChecks` list built just above it). -/
def checkUserLevels (senderLevel : Int) : List (Int × Int) → AuthResult
  | [] => .ok
  | (o, n) :: rest =>
    if o ≠ n ∧ (senderLevel ≤ o ∨ senderLevel < n) then
      .notAllowed ("sender with level " ++ toString senderLevel ++
        " is not allowed to change user level from " ++ toString o ++ " to " ++ toString n)
    else checkUserLevels senderLevel rest

/-- From the source (`powerLevelEventAllowed`, eventauth.go lines 356-442),
the part after the common checks: given the old (loaded) and new (parsed)
power-levels contents, validate the new `users` keys, then run the two check
loops. Notes on fidelity to the source text:
* `senderLevel` is referenced in the source without a local definition; per
  the spec (section 4.7) it is the sender's effective level under the old
  power-levels, which is what the embedding computes.
* The loops at lines 391-401 redeclare `levelChecks` with `:=` inside the
  loop body, so the event-type pairs they build are discarded and
  `levelChecks` keeps exactly the six scalar pairs.
* The loops at lines 418-428 likewise discard their appends to
  `userLevelChecks`, and the final loop at line 430 ranges over `levelChecks`
  rather than `userLevelChecks`, so no user-level pair (nor the
  `users_default` pair) is ever checked, while the six scalar pairs are
  checked a second time under the stricter predicate. -/
def powerLevelEventAllowed (senderID : String)
    (oldPowerLevels newPowerLevels : PowerLevelContent) : AuthResult :=
  (validateUserIDs newPowerLevels.userLevels).andThen fun _ =>
    let senderLevel := oldPowerLevels.userLevel senderID
    let levelChecks : List (Int × Int) :=
      [(oldPowerLevels.banLevel, newPowerLevels.banLevel),
       (oldPowerLevels.inviteLevel, newPowerLevels.inviteLevel),
       (oldPowerLevels.kickLevel, newPowerLevels.kickLevel),
       (oldPowerLevels.redactLevel, newPowerLevels.redactLevel),
       (oldPowerLevels.stateDefaultLevel, newPowerLevels.stateDefaultLevel),
       (oldPowerLevels.eventDefaultLevel, newPowerLevels.eventDefaultLevel)]
    (checkLevels senderLevel levelChecks).andThen fun _ =>
      checkUserLevels senderLevel levelChecks

/-- Modelled from the spec: the server-domain of an identifier is the
substring after the first colon; an identifier without a colon is
ill-formed. -/
def domainFromID (id : String) : Option String :=
  match id.splitOn ":" with
  | [] => none
  | [_] => none
  | _ :: rest => some (String.intercalate ":" rest)

/-- Create content (`createContent`). The parser and loader for this type are
not part of eventauth.go; per the spec (section 3, Create content) it carries
the `creator` user ID, the `m.federate` policy (default true), and the create
event's own ID recovered from the oracle's create entry. -/
structure CreateContent where
  creator : String
  federate : Bool
  eventID : String
deriving DecidableEq, Repr

/-- Modelled from the spec: `createContent.idAllowed` — the federation-policy
check. When `m.federate` is false, only the creator's server may act, so the
identifier's domain must equal the creator's domain; an identifier whose
domain cannot be extracted is denied. -/
def CreateContent.idAllowed (c : CreateContent) (id : String) : AuthResult :=
  if c.federate then .ok
  else
    match domainFromID id, domainFromID c.creator with
    | some d, some cd =>
      if d = cd then .ok
      else .notAllowed ("room is unfederatable: " ++ quoteQ id ++ " not on domain " ++ quoteQ cd)
    | _, _ => .notAllowed ("invalid ID: " ++ quoteQ id)

/-- Member event view: the fields of `Event` consumed by
`memberEventAllowed`, with the content pre-parsed (`membership` is the raw
`membership` token; `hasThirdPartyInvite` records whether the content carries
a `third_party_invite` sub-object). `prevEvents` keeps the Go shape
`[][]json.RawMessage`: a list of entries, each entry a list whose first
element is the prior event ID string. -/
structure MemberEvent where
  sender : String
  stateKey : Option String
  prevEvents : List (List String)
  membership : String
  hasThirdPartyInvite : Bool

/-- Modelled from the spec: the auth-state oracle, with each entry already
parsed into its typed content. `none` means the entry is absent (use
defaults); oracle storage errors are outside the decision logic modelled
here. `memberEvent` returns the stored membership token of a user, when a
member entry for that user exists. -/
structure AuthState where
  createEvent : Option CreateContent
  joinRuleEvent : Option String
  powerLevelsEvent : Option PowerLevelContent
  memberEvent : String → Option String

/-- Modelled from the spec: valid membership tokens of member content. -/
def validMembershipTokens : List String := ["join", "leave", "invite", "ban", "knock"]

/-- Modelled from the spec: `memberContent.parse` — any token other than the
five valid memberships is a parse failure, which is a denial. -/
def parseMembership (ev : MemberEvent) : AuthResult :=
  if validMembershipTokens.contains ev.membership then .ok
  else .notAllowed ("unparsable member event content: bad membership " ++ quoteQ ev.membership)

/-- Modelled from the spec: `memberContent.load` — an absent prior member
entry is treated as membership `leave`. -/
def loadMembership (stored : Option String) : String :=
  match stored with
  | some m => m
  | none => "leave"

/-- Modelled from the spec: `joinRuleContent.load` — absence of a join-rules
event defaults the join rule to `invite`. -/
def loadJoinRule (stored : Option String) : String :=
  match stored with
  | some j => j
  | none => "invite"

/-- From the source (`membershipAllowedSelf`, eventauth.go lines 263-294):
the self-transition machine, as the disjunction of the source's admit
branches (each branch returns nil; anything else falls to
`membershipFailed`). -/
def membershipAllowedSelf (oldMembership newMembership joinRule : String) : Bool :=
  decide ((newMembership = "join" ∧
      ((oldMembership = "leave" ∧ joinRule = "public") ∨
       (oldMembership = "invite" ∧ joinRule = "public") ∨
       (oldMembership = "invite" ∧ joinRule = "invite") ∨
       oldMembership = "join")) ∨
    (newMembership = "leave" ∧ (oldMembership = "join" ∨ oldMembership = "invite")))

/-- From the source (`membershipAllowedOther`, eventauth.go lines 296-335):
the other-transition machine, as the disjunction of the source's admit
branches, all guarded by the sender being joined. `senderLevel` and
`targetLevel` are the effective user levels computed at the top of the
function. -/
def membershipAllowedOther (pl : PowerLevelContent)
    (senderID targetID senderMembership oldMembership newMembership : String) : Bool :=
  let senderLevel := pl.userLevel senderID
  let targetLevel := pl.userLevel targetID
  decide (senderMembership = "join" ∧
    ((newMembership = "ban" ∧ senderLevel ≥ pl.banLevel ∧ senderLevel > targetLevel) ∨
     (newMembership = "leave" ∧ oldMembership = "ban" ∧ senderLevel ≥ pl.banLevel) ∨
     (newMembership = "leave" ∧ oldMembership ≠ "ban" ∧
        senderLevel ≥ pl.kickLevel ∧ senderLevel > targetLevel) ∨
     (newMembership = "invite" ∧ oldMembership = "leave" ∧ senderLevel ≥ pl.inviteLevel) ∨
     (newMembership = "invite" ∧ oldMembership = "invite" ∧ senderLevel ≥ pl.inviteLevel)))

/-- From the source (`membershipFailed`, eventauth.go lines 338-354): the
denial message, distinguishing self-transitions, a sender not in the room,
and a sender lacking rights. -/
def membershipFailed (senderID targetID senderMembership oldMembership newMembership : String) :
    AuthResult :=
  if senderID = targetID then
    .notAllowed (quoteQ targetID ++ " is not allowed to change their membership from " ++
      quoteQ oldMembership ++ " to " ++ quoteQ newMembership)
  else if senderMembership ≠ "join" then
    .notAllowed ("sender " ++ quoteQ senderID ++ " is not in the room")
  else
    .notAllowed (quoteQ senderID ++ " is not allowed to change the membership of " ++
      quoteQ targetID ++ " from " ++ quoteQ oldMembership ++ " to " ++ quoteQ newMembership)

/-- From the source (`membershipAllower.setup` and `membershipAllowed`,
eventauth.go lines 231-261): load the sender's and target's memberships, the
join rule and the power levels, then dispatch on sender = target. -/
def memberTransition (ev : MemberEvent) (auth : AuthState) (create : CreateContent)
    (targetID : String) : AuthResult :=
  let senderMembership := loadMembership (auth.memberEvent ev.sender)
  let oldMembership := loadMembership (auth.memberEvent targetID)
  let joinRule := loadJoinRule auth.joinRuleEvent
  let pl := loadPowerLevels auth.powerLevelsEvent create.creator
  if ev.sender = targetID then
    if membershipAllowedSelf oldMembership ev.membership joinRule then .ok
    else membershipFailed ev.sender targetID senderMembership oldMembership ev.membership
  else
    if membershipAllowedOther pl ev.sender targetID senderMembership oldMembership ev.membership
    then .ok
    else membershipFailed ev.sender targetID senderMembership oldMembership ev.membership

/-- From the source (`memberEventAllowed`, eventauth.go lines 180-199): the
creator-bootstrap special case. `some r` means the special case decided the
event with result `r`; `none` means fall through to the usual authentication
process. The prev-event entry must have exactly two elements and its first
element is the prior event ID (`json.Unmarshal` of a raw string, always
succeeding in this pre-parsed model). -/
def memberBootstrap (ev : MemberEvent) (create : CreateContent) (targetID : String) :
    Option AuthResult :=
  if ev.prevEvents.length = 1 ∧ ev.membership = "join" ∧
      create.creator = targetID ∧ ev.sender = targetID then
    match ev.prevEvents with
    | [entry] =>
      if entry.length ≠ 2 then some (.notAllowed "unparsable prev event")
      else
        match entry.head? with
        | some prevEventID =>
          if prevEventID = create.eventID then some .ok else none
        | none => some (.notAllowed "unparsable prev event")
    | _ => none
  else none

/-- From the source (`memberEventAllowed`, eventauth.go lines 200-218): after
the bootstrap special case, check the federation policy for the target, then
the third-party-invite special case — which is an explicit
`panic(fmt.Errorf("ThirdPartyInvite not implemented"))` — and otherwise run
the transition machine. -/
def memberAfterBootstrap (ev : MemberEvent) (auth : AuthState) (create : CreateContent)
    (targetID : String) : AuthResult :=
  (create.idAllowed targetID).andThen fun _ =>
    if ev.membership = "invite" ∧ ev.hasThirdPartyInvite then
      .panicked "ThirdPartyInvite not implemented"
    else
      memberTransition ev auth create targetID

/-- From the source (`memberEventAllowed`, eventauth.go lines 163-218): load
the create content, check the federation policy for the sender, parse the new
membership, require a state key, then the bootstrap special case, then the
rest. -/
def memberEventAllowed (ev : MemberEvent) (auth : AuthState) : AuthResult :=
  match auth.createEvent with
  | none => .notAllowed "missing create event"
  | some create =>
    (create.idAllowed ev.sender).andThen fun _ =>
      (parseMembership ev).andThen fun _ =>
        match ev.stateKey with
        | none => .notAllowed "member must be a state event"
        | some targetID =>
          match memberBootstrap ev create targetID with
          | some r => r
          | none => memberAfterBootstrap ev auth create targetID

/-- Member function of an `AuthState` with no member entries at all. -/
def noMembers : String → Option String := fun _ => none

/-- Rule routine selected by the top-level dispatcher. -/
inductive EventRoute where
  | createRule : EventRoute
  | aliasRule : EventRoute
  | memberRule : EventRoute
  | powerLevelsRule : EventRoute
  | redactRule : EventRoute
  | defaultRule : EventRoute
deriving DecidableEq, Repr

/-- From the source (`Allowed`, eventauth.go lines 106-121): the dispatcher's
switch on the event type, recorded as which rule routine is invoked. Note the
alias case string in the source is `"m.room.alias"`. -/
def allowedRoute (eventType : String) : EventRoute :=
  if eventType = "m.room.create" then .createRule
  else if eventType = "m.room.alias" then .aliasRule
  else if eventType = "m.room.member" then .memberRule
  else if eventType = "m.room.power_levels" then .powerLevelsRule
  else if eventType = "m.room.redact" then .redactRule
  else .defaultRule

/-- Candidate-event view for `StateNeededForAuth`: the type, sender and state
key, plus the parsed `third_party_invite.signed.token` of the content —
`none` when the content does not unmarshal, `some t` for a token `t`
(possibly empty). -/
structure NEvent where
  type : String
  sender : String
  stateKey : Option String
  tpiToken : Option String

/-- From the source (`needsThirdpartyInvite`, eventauth.go lines 563-584):
append the third-party-invite token of the event's content when the content
unmarshals and the token is non-empty; otherwise leave the list unchanged. -/
def needsThirdpartyInvite (thirdpartyinvites : List String) (ev : NEvent) : List String :=
  match ev.tpiToken with
  | none => thirdpartyinvites
  | some t => if t = "" then thirdpartyinvites else thirdpartyinvites ++ [t]

/-- StateNeeded lists the state entries needed to authenticate an event
(eventauth.go lines 22-34). -/
structure StateNeeded where
  create : Bool
  joinRules : Bool
  powerLevels : Bool
  member : List String
  thirdPartyInvite : List String
deriving DecidableEq, Repr

/-- Accumulator of the loop inside `StateNeededForAuth`. -/
structure NeededAcc where
  create : Bool
  joinRules : Bool
  powerLevels : Bool
  members : List String
  thirdpartyinvites : List String
deriving DecidableEq, Repr

/-- From the source (`StateNeededForAuth`, eventauth.go lines 40-76): the
per-event case of the loop. The member case appends the sender and the
dereferenced state key; dereferencing an absent state key is a nil-pointer
panic, modelled as `none`. -/
def stateNeededStep (acc : NeededAcc) (ev : NEvent) : Option NeededAcc :=
  if ev.type = "m.room.create" then some acc
  else if ev.type = "m.room.aliases" then some { acc with create := true }
  else if ev.type = "m.room.member" then
    match ev.stateKey with
    | none => none
    | some sk =>
      some { acc with
        create := true
        powerLevels := true
        joinRules := true
        members := acc.members ++ [ev.sender, sk]
        thirdpartyinvites := needsThirdpartyInvite acc.thirdpartyinvites ev }
  else
    some { acc with
      create := true
      powerLevels := true
      members := acc.members ++ [ev.sender] }

/-- Swap of two array entries at Go `int` indices, with Go's bounds check:
an out-of-range index is a runtime panic, modelled as `none`. A Go index of
`-1` (from `length-1` at length 0) reaches this model as the natural number
`0` on an empty array, which is equally out of range. -/
def swapQ (a : Array String) (i j : Nat) : Option (Array String) :=
  if hi : i < a.size then
    if hj : j < a.size then some (a.swap ⟨i, hi⟩ ⟨j, hj⟩) else none
  else none

/-- From the source (`unique`, eventauth.go lines 550-561): the body of the
`for i := 1; i < length; i++` loop, with fuel bounding the iteration count.
`data.Less(i-1, i)` on a string slice is `data[i-1] < data[i]`. -/
def uniqueLoop : Nat → Array String → Nat → Nat → Option (Array String × Nat)
  | 0, a, _, j => some (a, j)
  | fuel + 1, a, i, j =>
    if i < a.size then
      match a.get? (i - 1), a.get? i with
      | some x, some y =>
        if x < y then
          match swapQ a (i - 1) j with
          | some a2 => uniqueLoop fuel a2 (i + 1) (j + 1)
          | none => none
        else uniqueLoop fuel a (i + 1) j
      | _, _ => none
    else some (a, j)

/-- From the source (`unique`, eventauth.go lines 550-561): after the loop,
the function performs `data.Swap(length-1, j)` unconditionally and returns
`j+1`. On an empty slice this is `Swap(-1, 0)`, an index-out-of-range panic,
modelled as `none`. -/
def unique (a : Array String) : Option (Array String × Nat) :=
  match uniqueLoop a.size a 1 0 with
  | none => none
  | some (a2, j) =>
    match swapQ a2 (a2.size - 1) j with
    | some a3 => some (a3, j + 1)
    | none => none

/-- Insertion of a string into a sorted list; `sortStrings` models Go's
`sort.Strings` (duplicates are identical, so stability is irrelevant). -/
def insertSorted (s : String) : List String → List String
  | [] => [s]
  | x :: xs => if s ≤ x then s :: x :: xs else x :: insertSorted s xs

/-- Model of `sort.Strings`: sort a list of strings lexicographically. -/
def sortStrings (l : List String) : List String := l.foldr insertSorted []

/-- From the source (`StateNeededForAuth`, eventauth.go lines 36-84): fold
the per-event case over the batch, then sort each list and truncate it to the
length returned by `unique`. A panic anywhere (absent member state key, or
`unique` on an empty list) is `none`. -/
def StateNeededForAuth (events : List NEvent) : Option StateNeeded := do
  let acc ← events.foldlM stateNeededStep ⟨false, false, false, [], []⟩
  let (membersArr, nm) ← unique (Array.mk (sortStrings acc.members))
  let (tpiArr, nt) ← unique (Array.mk (sortStrings acc.thirdpartyinvites))
  pure ⟨acc.create, acc.joinRules, acc.powerLevels,
    membersArr.toList.take nm, tpiArr.toList.take nt⟩

/-! ## Claim theorems -/

/-- C1: the claim requires every changed user level to be admitted only under
`S > old_v`, `S ≥ new_v` (and `S > new_v` for another user). On the code this
fails: the appends building the user-level pairs are discarded by the `:=`
redeclarations, and the final check loop ranges over `levelChecks`, so a
power-levels event that raises another user from the default 0 to 100 is
admitted even though the sender's effective level is 0. -/
theorem c1_user_level_changes_unchecked :
    powerLevelEventAllowed "@a:a" defaultPowerLevels
      { defaultPowerLevels with userLevels := [("@b:b", 100)] } = .ok := by
  decide

/-- C2: the claim states admission iff `S ≥ max(old_v, new_v)` for every
changed scalar pair. The spec's own example pair behaves as claimed
(sender level 60 lowering `ban` from 50 to 40 is admitted, level 45 is
denied), but the boundary case sender level 50 — where `S ≥ max(50,40)`
holds — is denied, because the second check loop ranges over the scalar
`levelChecks` again with the strict `senderLevel <= old` predicate. -/
theorem c2_scalar_ceiling_boundary :
    powerLevelEventAllowed "@a:a"
      { defaultPowerLevels with userLevels := [("@a:a", 50)] }
      { defaultPowerLevels with banLevel := 40, userLevels := [("@a:a", 50)] } =
      .notAllowed "sender with level 50 is not allowed to change user level from 50 to 40"
  ∧ powerLevelEventAllowed "@a:a"
      { defaultPowerLevels with userLevels := [("@a:a", 60)] }
      { defaultPowerLevels with banLevel := 40, userLevels := [("@a:a", 60)] } = .ok
  ∧ powerLevelEventAllowed "@a:a"
      { defaultPowerLevels with userLevels := [("@a:a", 45)] }
      { defaultPowerLevels with banLevel := 40, userLevels := [("@a:a", 45)] } =
      .notAllowed "sender with level 45 is not allowed to change level from 50 to 40" := by
  refine ⟨by decide, by decide, by decide⟩

/-- C3: a member event with exactly one prior event, membership `join`,
sender = state key = creator, and prior event ID equal to the create event's
own ID is admitted; and with any other prior event ID, under absent join
rules, power levels and member entries, the event is denied. -/
theorem c3_creator_bootstrap :
    (∀ (ev : MemberEvent) (auth : AuthState) (c : CreateContent) (h : String),
      auth.createEvent = some c → c.federate = true →
      ev.sender = c.creator → ev.stateKey = some c.creator →
      ev.membership = "join" → ev.prevEvents = [[c.eventID, h]] →
      memberEventAllowed ev auth = .ok)
  ∧ (∀ (ev : MemberEvent) (c : CreateContent) (pid h : String),
      c.federate = true →
      ev.sender = c.creator → ev.stateKey = some c.creator →
      ev.membership = "join" → ev.prevEvents = [[pid, h]] → pid ≠ c.eventID →
      (memberEventAllowed ev ⟨some c, none, none, noMembers⟩).isDenied = true) := by
  constructor
  · intro ev auth c h h1 h2 h3 h4 h5 h6
    obtain ⟨sender, stateKey, prevEvents, membership, tpi⟩ := ev
    obtain ⟨ce, jre, ple, me⟩ := auth
    obtain ⟨cr, fed, eid⟩ := c
    simp only at h1 h2 h3 h4 h5 h6
    subst h1 h2 h3 h4 h5 h6
    simp [memberEventAllowed, CreateContent.idAllowed, AuthResult.andThen,
      parseMembership, validMembershipTokens, memberBootstrap]
  · intro ev c pid h h2 h3 h4 h5 h6 hne
    obtain ⟨sender, stateKey, prevEvents, membership, tpi⟩ := ev
    obtain ⟨cr, fed, eid⟩ := c
    simp only at h2 h3 h4 h5 h6
    subst h2 h3 h4 h5 h6
    simp only at hne
    simp [memberEventAllowed, CreateContent.idAllowed, AuthResult.andThen,
      parseMembership, validMembershipTokens, memberBootstrap, hne,
      memberAfterBootstrap, memberTransition, loadMembership, noMembers,
      loadJoinRule, loadPowerLevels, membershipAllowedSelf, membershipFailed,
      AuthResult.isDenied]

/-- C3 witness: the bootstrap join of `@alice:a` with the single prior event
equal to the create event ID `$e:a` is admitted, and with prior event
`$x:a` it is denied. -/
theorem c3_creator_bootstrap_witness :
    memberEventAllowed ⟨"@alice:a", some "@alice:a", [["$e:a", "h0"]], "join", false⟩
      ⟨some ⟨"@alice:a", true, "$e:a"⟩, none, none, noMembers⟩ = .ok
  ∧ (memberEventAllowed ⟨"@alice:a", some "@alice:a", [["$x:a", "h0"]], "join", false⟩
      ⟨some ⟨"@alice:a", true, "$e:a"⟩, none, none, noMembers⟩).isDenied = true :=
  ⟨c3_creator_bootstrap.1 ⟨"@alice:a", some "@alice:a", [["$e:a", "h0"]], "join", false⟩
      ⟨some ⟨"@alice:a", true, "$e:a"⟩, none, none, noMembers⟩
      ⟨"@alice:a", true, "$e:a"⟩ "h0" rfl rfl rfl rfl rfl rfl,
   c3_creator_bootstrap.2 ⟨"@alice:a", some "@alice:a", [["$x:a", "h0"]], "join", false⟩
      ⟨"@alice:a", true, "$e:a"⟩ "$x:a" "h0" rfl rfl rfl rfl rfl (by decide)⟩

/-- C4: the self-transition machine admits exactly the five listed
transitions — `leave→join` under join rule `public`, `invite→join` under
`public` or `invite`, `join→join`, `join→leave`, `invite→leave` — and the
member loader treats an absent prior member entry as `leave`. -/
theorem c4_self_transition_table :
    (∀ o n j : String, membershipAllowedSelf o n j = true ↔
      ((o = "leave" ∧ n = "join" ∧ j = "public") ∨
       (o = "invite" ∧ n = "join" ∧ (j = "public" ∨ j = "invite")) ∨
       (o = "join" ∧ n = "join") ∨
       (o = "join" ∧ n = "leave") ∨
       (o = "invite" ∧ n = "leave")))
  ∧ loadMembership none = "leave" := by
  refine ⟨fun o n j => ?_, rfl⟩
  simp only [membershipAllowedSelf, decide_eq_true_eq]
  tauto

/-- C5: the other-transition machine admits a `ban` exactly when the sender
is currently joined, the sender's effective level is at least the ban level,
and strictly exceeds the target's effective level. -/
theorem c5_ban_requires_power :
    ∀ (pl : PowerLevelContent) (s t sm o : String),
      membershipAllowedOther pl s t sm o "ban" = true ↔
        (sm = "join" ∧ pl.userLevel s ≥ pl.banLevel ∧ pl.userLevel s > pl.userLevel t) := by
  intro pl s t sm o
  simp only [membershipAllowedOther, decide_eq_true_eq]
  tauto

/-- C6: the claim states that events typed `m.room.aliases` are routed to the
alias rule. On the code this fails: the dispatcher's case string is
`m.room.alias`, so `m.room.aliases` falls to the default rule — while the
`StateNeededForAuth` switch in the same file recognizes `m.room.aliases` as
the alias type (requiring only the create entry). -/
theorem c6_aliases_routed_to_default :
    allowedRoute "m.room.aliases" = .defaultRule
  ∧ allowedRoute "m.room.alias" = .aliasRule
  ∧ stateNeededStep ⟨false, false, false, [], []⟩ ⟨"m.room.aliases", "@a:a", none, none⟩ =
      some ⟨true, false, false, [], []⟩ := by
  refine ⟨by decide, by decide, by decide⟩

/-- C7 counterexample: the claim states that a member event with membership
`invite` carrying a third-party invite yields a `NotAllowed` value and never
crashes. On the code this fails at a concrete input: the path executes
`panic(fmt.Errorf("ThirdPartyInvite not implemented"))`, which aborts the
caller and is not a `NotAllowed` value. -/
theorem c7_counterexample :
    memberEventAllowed ⟨"@alice:a", some "@bob:b", [["$e:a", "h0"]], "invite", true⟩
      ⟨some ⟨"@alice:a", true, "$e:a"⟩, none, none, noMembers⟩ =
      .panicked "ThirdPartyInvite not implemented"
  ∧ (memberEventAllowed ⟨"@alice:a", some "@bob:b", [["$e:a", "h0"]], "invite", true⟩
      ⟨some ⟨"@alice:a", true, "$e:a"⟩, none, none, noMembers⟩).isDenied = false := by
  refine ⟨by decide, by decide⟩

/-- C7 amended: every member event whose parsed membership is `invite` and
whose content carries a third-party invite, once past the create load, the
federation checks and the state-key requirement, makes the engine panic with
the message `ThirdPartyInvite not implemented` instead of returning a
`NotAllowed` denial. -/
theorem c7_third_party_invite_panics :
    ∀ (ev : MemberEvent) (auth : AuthState) (c : CreateContent) (t : String),
      auth.createEvent = some c → c.federate = true →
      ev.stateKey = some t → ev.membership = "invite" → ev.hasThirdPartyInvite = true →
      memberEventAllowed ev auth = .panicked "ThirdPartyInvite not implemented" := by
  intro ev auth c t h1 h2 h3 h4 h5
  obtain ⟨sender, stateKey, prevEvents, membership, tpi⟩ := ev
  obtain ⟨ce, jre, ple, me⟩ := auth
  obtain ⟨cr, fed, eid⟩ := c
  simp only at h1 h2 h3 h4 h5
  subst h1 h2 h3 h4 h5
  simp [memberEventAllowed, CreateContent.idAllowed, AuthResult.andThen,
    parseMembership, validMembershipTokens, memberBootstrap, memberAfterBootstrap]

/-- C7 witness: a concrete invite with a third-party invite panics. -/
theorem c7_third_party_invite_panics_witness :
    memberEventAllowed ⟨"@a:a", some "@b:b", [], "invite", true⟩
      ⟨some ⟨"@a:a", true, "$e:a"⟩, none, none, noMembers⟩ =
      .panicked "ThirdPartyInvite not implemented" :=
  c7_third_party_invite_panics ⟨"@a:a", some "@b:b", [], "invite", true⟩
    ⟨some ⟨"@a:a", true, "$e:a"⟩, none, none, noMembers⟩
    ⟨"@a:a", true, "$e:a"⟩ "@b:b" rfl rfl rfl rfl rfl

/-- C8: the claim states `StateNeededForAuth` is total on every batch,
including the empty batch and batches contributing no member state keys or
third-party tokens. On the code this fails: `unique` unconditionally performs
`data.Swap(length-1, j)`, which on an empty list is `Swap(-1, 0)` — an index
out of range — so both the empty batch and a batch of a single
`m.room.create` event panic. -/
theorem c8_state_needed_panics_on_empty :
    StateNeededForAuth [] = none
  ∧ StateNeededForAuth [⟨"m.room.create", "@a:a", none, none⟩] = none := by
  refine ⟨by decide, by decide⟩

/-- C9: the claim states the user-ID well-formedness check is total and that
every ill-formed key, including the empty string, is denied naming the key.
On the code this fails for the empty string: `userID[0]` panics with an index
out of range, so a new `users` map keyed by `""` makes the power-levels rule
panic rather than deny; a non-empty ill-formed key such as `alice` is denied
naming the key as claimed. -/
theorem c9_empty_user_key_panics :
    isValidUserID "" = none
  ∧ powerLevelEventAllowed "@a:a" defaultPowerLevels
      { defaultPowerLevels with userLevels := [("", 0)] } = .panicked "index out of range"
  ∧ powerLevelEventAllowed "@a:a" defaultPowerLevels
      { defaultPowerLevels with userLevels := [("alice", 0)] } =
      .notAllowed "Not a valid user ID: \"alice\"" := by
  refine ⟨rfl, by decide, by decide⟩

/-- C10: the other-transition machine has admit branches only for new
memberships `ban`, `leave` and `invite`; a member event naming another user
with new membership `join` or `knock` is denied regardless of power levels,
prior memberships or join rules. -/
theorem c10_no_forced_join :
    ∀ (pl : PowerLevelContent) (s t sm o : String),
      membershipAllowedOther pl s t sm o "join" = false
    ∧ membershipAllowedOther pl s t sm o "knock" = false := by
  intro pl s t sm o
  constructor <;> simp [membershipAllowedOther]

end Matrixeventauth

